import Mathlib

/-!
Verification of the risk-evaluation engine of a financial fraud-detection
service (`main.py`).  The engine (`detect_fraud`) combines four heuristic
signal evaluators — blacklisted identifiers, odd transaction hour, amount
anomaly via z-score, and geographic drift — into a risk score, an ordered
list of reason strings and a boolean verdict, and the HTTP endpoint
(`check_fraud_endpoint`) feeds fraudulent recipients back into the
blacklist store with an upsert.

The embedding is shallow: the MongoDB collections, the geocoder and the
geodesic-distance routine are modelled as an explicit environment value
(`Env`).  Python floats are idealised as rationals.  Collaborator calls
that the Python code does not guard with `try/except` are modelled in the
`Except Unit` monad so that an exception escaping `detect_fraud` is
observable; calls that the code does guard are total and fall back to the
value the `except` branch returns.  The z-score `z = |amount - mean|/std`
involves a square root, so the embedding carries `z` by its square
(`zsq = (amount - mean)^2 / variance`) and compares `zsq > 4` where the
source compares `z > 2`; the rendered two-decimal text of `z` is computed
exactly from `zsq` by integer square-root arithmetic.
-/

/-- The incoming transaction (Pydantic model `Transaction` in `main.py`). -/
structure Transaction where
  transaction_id : String
  timestamp : String
  amount : ℚ
  location : String
  card_type : String
  currency : String
  recipient_account_number : String
deriving DecidableEq, Repr

/-- One document of the `blacklist` collection: `{"type": kind, "value": v,
"added_at": t, "reason": r?}`. -/
structure BlacklistEntry where
  kind : String
  value : String
  added_at : Nat
  reason : Option String
deriving DecidableEq, Repr

/-- One document of the `transactions` collection, as written by
`check_fraud_endpoint` (`transaction_doc` in `main.py`). -/
structure HistRecord where
  transaction_id : String
  timestamp : String
  amount : ℚ
  location : String
  card_type : String
  currency : String
  recipient_account_number : String
  is_fraud : Bool
  fraud_reasons : List String
  risk_score : ℚ
  checked_by : String
  checked_at : Nat
deriving DecidableEq, Repr

/-- The response model `TransactionResponse` of `main.py`. -/
structure TransactionResponse where
  transaction_id : String
  timestamp : String
  amount : ℚ
  location : String
  card_type : String
  currency : String
  recipient_account_number : String
  is_fraud : Bool
  fraud_reasons : List String
  risk_score : ℚ
deriving DecidableEq, Repr

/-- The world the engine runs against: the two MongoDB collections, the
geocoder and the geodesic-distance function, plus failure switches that
model the collaborator calls raising an exception. -/
structure Env where
  /-- contents of the `blacklist` collection -/
  blacklist : List BlacklistEntry
  /-- `blacklist_collection.find_one` raises -/
  blacklistFails : Bool
  /-- contents of the `transactions` collection (insertion order) -/
  history : List HistRecord
  /-- `transactions_collection.find` / `find_one` raises -/
  historyFails : Bool
  /-- `geolocator.geocode loc`: coordinates, or `none` when no result -/
  geocode : String → Option (ℚ × ℚ)
  /-- `geolocator.geocode loc` raises for this location -/
  geocodeFails : String → Bool
  /-- `geodesic(c1, c2).kilometers` -/
  geoDistance : ℚ × ℚ → ℚ × ℚ → ℚ

/-- `blacklist_collection.find_one({"type": kind, "value": value})`,
reported as a boolean membership test; `.error ()` when the store raises.
In `detect_fraud` these two calls are *not* wrapped in `try/except`. -/
def findBlacklist (env : Env) (kind value : String) : Except Unit Bool :=
  if env.blacklistFails then Except.error ()
  else Except.ok (env.blacklist.any (fun e => e.kind == kind && e.value == value))

/-- Result of `datetime.strptime(ts, "%Y-%m-%d %H:%M:%S")`. -/
structure ParsedTime where
  year : Nat
  month : Nat
  day : Nat
  hour : Nat
  minute : Nat
  second : Nat
deriving DecidableEq, Repr

def digitsToNat (ds : List Char) : Nat :=
  ds.foldl (fun a c => 10 * a + (c.toNat - 48)) 0

/-- Python regex `\s` character class (the whitespace `strptime` accepts
between the date and time fields). -/
def isPySpace (c : Char) : Bool :=
  c == ' ' || c == '\t' || c == '\n' || c == '\r' || c == '\x0b' || c == '\x0c'

def expectChar (c : Char) : List Char → Option (List Char)
  | [] => none
  | x :: xs => if x = c then some xs else none

def isLeapYear (y : Nat) : Bool :=
  (y % 4 == 0 && y % 100 != 0) || y % 400 == 0

def daysInMonth (y m : Nat) : Nat :=
  if m = 2 then (if isLeapYear y then 29 else 28)
  else if m = 4 ∨ m = 6 ∨ m = 9 ∨ m = 11 then 30
  else 31

/-- Read a run of `lo`–`hi` digits from the front of the character list,
returning its value and the rest. -/
def parseField (cs : List Char) (lo hi : Nat) : Option (Nat × List Char) :=
  let p := cs.span Char.isDigit
  if lo ≤ p.1.length ∧ p.1.length ≤ hi then some (digitsToNat p.1, p.2) else none

/-- Read the one-or-more whitespace that `strptime` accepts for a literal
space in the format. -/
def parseSpaces (cs : List Char) : Option (List Char) :=
  let p := cs.span isPySpace
  if 1 ≤ p.1.length then some p.2 else none

/-- `datetime.strptime(s, "%Y-%m-%d %H:%M:%S")` as a total function:
`none` exactly when CPython raises `ValueError`.  CPython's `_strptime`
matches `%Y` as four digits, `%m`/`%d`/`%H`/`%M`/`%S` as one or two
digits with the regex bounding months at 12, hours at 23 and
minutes/seconds at 59 (61 for `%S`, but the `datetime` constructor then
rejects 60 and 61), a literal space as one-or-more whitespace, requires
the whole string to match, and the `datetime` constructor finally checks
`year ≥ 1` and the day against the month length (proleptic Gregorian). -/
def parseTimestamp (s : String) : Option ParsedTime :=
  match parseField s.data 4 4 with
  | none => none
  | some (y, r1) =>
  match expectChar '-' r1 with
  | none => none
  | some r2 =>
  match parseField r2 1 2 with
  | none => none
  | some (mo, r3) =>
  match expectChar '-' r3 with
  | none => none
  | some r4 =>
  match parseField r4 1 2 with
  | none => none
  | some (d, r5) =>
  match parseSpaces r5 with
  | none => none
  | some r6 =>
  match parseField r6 1 2 with
  | none => none
  | some (h, r7) =>
  match expectChar ':' r7 with
  | none => none
  | some r8 =>
  match parseField r8 1 2 with
  | none => none
  | some (mi, r9) =>
  match expectChar ':' r9 with
  | none => none
  | some r10 =>
  match parseField r10 1 2 with
  | none => none
  | some (sec, r11) =>
  if 1 ≤ y ∧ 1 ≤ mo ∧ mo ≤ 12 ∧ 1 ≤ d ∧ d ≤ daysInMonth y mo ∧
     h ≤ 23 ∧ mi ≤ 59 ∧ sec ≤ 59 ∧ r11 = []
  then some ⟨y, mo, d, h, mi, sec⟩ else none

/-- `is_odd_hour` of `main.py`: parse the timestamp and test
`0 <= hour <= 4`; any parse failure is swallowed and yields `False`. -/
def is_odd_hour (timestamp_str : String) : Bool :=
  match parseTimestamp timestamp_str with
  | some dt => decide (dt.hour ≤ 4)
  | none => false

/-- `geolocator.geocode` under the `try/except` of `get_coordinates`:
`none` both when the geocoder raises and when it finds nothing. -/
def get_coordinates (env : Env) (location : String) : Option (ℚ × ℚ) :=
  if env.geocodeFails location then none else env.geocode location

/-- `calculate_distance` of `main.py`: geodesic kilometres between the two
resolved locations, `0` when either resolution fails. -/
def calculate_distance (env : Env) (loc1 loc2 : String) : ℚ :=
  match get_coordinates env loc1, get_coordinates env loc2 with
  | some c1, some c2 => env.geoDistance c1 c2
  | _, _ => 0

/-- The `transactions` collection sorted by the string field `timestamp`
descending (`.sort("timestamp", -1)`), as a structurally recursive
insertion: place `x` before the first record whose timestamp is
strictly smaller. -/
def insertTsDesc (x : HistRecord) : List HistRecord → List HistRecord
  | [] => [x]
  | y :: ys => if x.timestamp ≤ y.timestamp then y :: insertTsDesc x ys
               else x :: y :: ys

def sortTsDesc (l : List HistRecord) : List HistRecord :=
  l.foldr insertTsDesc []

/-- `transactions_collection.find({"card_type": ct}).sort("timestamp", -1)
.limit(5)`: the five most recent records of this card type. -/
def recentWindow (env : Env) (card_type : String) : List HistRecord :=
  (sortTsDesc (env.history.filter (fun r => r.card_type == card_type))).take 5

/-- `transactions_collection.find_one({"card_type": ct},
sort=[("timestamp", -1)])`: the most recent record of this card type. -/
def lastTransaction (env : Env) (card_type : String) : Option HistRecord :=
  (sortTsDesc (env.history.filter (fun r => r.card_type == card_type))).head?

/-- `np.mean` of a list of rationals. -/
def sampleMean (xs : List ℚ) : ℚ := xs.sum / xs.length

/-- Square of `np.std` (population variance, `ddof = 0`). -/
def sampleVar (xs : List ℚ) : ℚ :=
  (xs.map (fun x => (x - sampleMean xs) ^ 2)).sum / xs.length

/-- `calculate_z_score` of `main.py`, carrying the z-score by its square:
the source returns `z = |amount - mean| / std` and this embedding returns
`z^2 = (amount - mean)^2 / variance` (with `std == 0` iff `variance = 0`);
the source's degenerate returns of `0` map to `0`.  The `try/except`
around the history query makes a failing query land in the same
`return 0` path. -/
def calculate_z_score (current_amount : ℚ) (card_type : String) (env : Env) : ℚ :=
  if env.historyFails then 0
  else
    let recent := recentWindow env card_type
    if recent.length < 2 then 0
    else
      let amounts := recent.map (fun r => r.amount)
      let mean_amount := sampleMean amounts
      let var_amount := sampleVar amounts
      if var_amount = 0 then 0
      else (current_amount - mean_amount) ^ 2 / var_amount

/-- `check_geographic_drift` of `main.py`: distance from the most recent
same-card-type transaction's location strictly above 500 km; `False` when
no prior transaction exists or the (guarded) history query fails. -/
def check_geographic_drift (location card_type : String) (env : Env) : Bool :=
  if env.historyFails then false
  else
    match lastTransaction env card_type with
    | none => false
    | some lastTxn => decide (500 < calculate_distance env location lastTxn.location)

/-- Integer Newton iteration for the floor square root; the fuel makes
the recursion structural so that the kernel can evaluate it. -/
def isqrtGo : Nat → Nat → Nat → Nat
  | 0, _, g => g
  | fuel + 1, n, g =>
    let g2 := (g + n / g) / 2
    if g2 < g then isqrtGo fuel n g2 else g

/-- Floor of the real square root (kernel-reducible `Nat.sqrt`): the
guess decreases strictly on every consumed unit of fuel and converges
from `n/2 + 1` in far fewer than `n` steps. -/
def isqrt (n : Nat) : Nat :=
  if n ≤ 1 then n else isqrtGo n n (n / 2 + 1)

/-- Two-decimal rendering of `√zsq` (the f-string `f"{z_score:.2f}"`):
the integer nearest `100·√zsq`, ties to even, computed exactly.  With
`zsq = p/q`, `100·√zsq = √(10000·p·q)/q`, whose floor is
`isqrt (10000·p·q) / q`, and the half-way comparison
`100·√zsq ≷ k + 1/2` is decided by `4·10000·p·q ≷ q²·(2k+1)²`. -/
def roundHundSqrt (zsq : ℚ) : Nat :=
  let p := zsq.num.toNat
  let q := zsq.den
  let N := 10000 * p * q
  let k := isqrt N / q
  let lhs := 4 * N
  let rhs := q * q * (2 * k + 1) * (2 * k + 1)
  if rhs < lhs then k + 1
  else if lhs < rhs then k
  else if k % 2 = 0 then k else k + 1

def pad2 (n : Nat) : String :=
  if n < 10 then "0" ++ toString n else toString n

/-- The text `f"{z_score:.2f}"` for `z = √zsq`. -/
def fmt2 (zsq : ℚ) : String :=
  toString (roundHundSqrt zsq / 100) ++ "." ++ pad2 (roundHundSqrt zsq % 100)

/-- The amount-anomaly reason string
`f"Abnormal transaction amount (z-score: {z_score:.2f})"`. -/
def amountReason (zsq : ℚ) : String :=
  "Abnormal transaction amount (z-score: " ++ fmt2 zsq ++ ")"

/-- `detect_fraud` of `main.py`.  The two unguarded
`blacklist_collection.find_one` calls run in `Except`; every other
evaluator is total because its `try/except` swallows its own faults.
Python's `if client_ip:` is the `some ip`-and-nonempty test.  The z-score
comparison `z_score > 2` is carried as `4 < zsq` on the squares. -/
def detect_fraud (t : Transaction) (client_ip : Option String) (env : Env) :
    Except Unit (Bool × List String × ℚ) :=
  match (match client_ip with
         | some ip => if ip = "" then Except.ok false else findBlacklist env "ip" ip
         | none => Except.ok false) with
  | Except.error e => Except.error e
  | Except.ok bip =>
    match findBlacklist env "account" t.recipient_account_number with
    | Except.error e => Except.error e
    | Except.ok bacc =>
      let rs1 : List String := if bip then ["Blacklisted IP address"] else []
      let s1 : ℚ := if bip then 30 else 0
      let rs2 := if bacc then rs1 ++ ["Blacklisted recipient account"] else rs1
      let s2 := if bacc then s1 + 40 else s1
      let rs3 := if is_odd_hour t.timestamp
                 then rs2 ++ ["Transaction at odd hours (12 AM - 4 AM)"] else rs2
      let s3 := if is_odd_hour t.timestamp then s2 + 15 else s2
      let zsq := calculate_z_score t.amount t.card_type env
      let rs4 := if 4 < zsq then rs3 ++ [amountReason zsq] else rs3
      let s4 := if 4 < zsq then s3 + 20 else s3
      let rs5 := if check_geographic_drift t.location t.card_type env
                 then rs4 ++ ["Geographic drift detected (>500km from last location)"] else rs4
      let s5 := if check_geographic_drift t.location t.card_type env then s4 + 25 else s4
      Except.ok (decide (0 < rs5.length ∨ 30 ≤ s5), rs5, s5)

/-- Update the first matching document of the `blacklist` collection
(`update_one` matches at most one document). -/
def setFirst (key : BlacklistEntry → Bool) (upd : BlacklistEntry → BlacklistEntry) :
    List BlacklistEntry → List BlacklistEntry
  | [] => []
  | e :: es => if key e then upd e :: es else e :: setFirst key upd es

/-- `blacklist_collection.update_one({"type": kind, "value": value},
{"$set": {...}}, upsert=True)`: update the first document with this
(kind, value), or insert a fresh one when none matches. -/
def blacklistUpsert (bl : List BlacklistEntry) (kind value : String)
    (time : Nat) (reason : Option String) : List BlacklistEntry :=
  if bl.any (fun e => e.kind == kind && e.value == value) then
    setFirst (fun e => e.kind == kind && e.value == value)
      (fun _ => ⟨kind, value, time, reason⟩) bl
  else bl ++ [⟨kind, value, time, reason⟩]

/-- `check_fraud_endpoint` of `main.py`: run `detect_fraud` with no
`client_ip`, append the annotated transaction to the `transactions`
collection, and on a positive verdict upsert the recipient account into
the blacklist with reason "Fraudulent transaction detected" and a fresh
timestamp (`now`).  An exception from `detect_fraud` propagates (the
route's own `try/except` turns it into an HTTP 500 for the client). -/
def check_fraud_endpoint (t : Transaction) (username : String) (now : Nat)
    (env : Env) : Except Unit (TransactionResponse × Env) :=
  match detect_fraud t none env with
  | Except.error e => Except.error e
  | Except.ok (f, rs, s) =>
    let txnDoc : HistRecord :=
      ⟨t.transaction_id, t.timestamp, t.amount, t.location, t.card_type,
       t.currency, t.recipient_account_number, f, rs, s, username, now⟩
    let env1 := { env with history := env.history ++ [txnDoc] }
    let env2 := if f then
        { env1 with blacklist := (blacklistUpsert env1.blacklist "account"
            t.recipient_account_number now (some "Fraudulent transaction detected")) }
      else env1
    Except.ok (⟨t.transaction_id, t.timestamp, t.amount, t.location, t.card_type,
       t.currency, t.recipient_account_number, f, rs, s⟩, env2)

/-! ## Canonical description of one `detect_fraud` run

The five trigger conditions of the evaluators, and the reason list /
score they aggregate to.  `detect_fraud_eq` below proves that, whenever
the blacklist store does not raise, `detect_fraud` returns exactly this
canonical assessment. -/

/-- The blacklisted-IP trigger: `client_ip` is a non-empty string found
in the blacklist under kind `ip`. -/
def ipFlag (client_ip : Option String) (env : Env) : Bool :=
  match client_ip with
  | some ip =>
      if ip = "" then false
      else env.blacklist.any (fun e => e.kind == "ip" && e.value == ip)
  | none => false

/-- The blacklisted-recipient-account trigger. -/
def accFlag (t : Transaction) (env : Env) : Bool :=
  env.blacklist.any (fun e => e.kind == "account" && e.value == t.recipient_account_number)

/-- The squared z-score `detect_fraud` computes for the transaction. -/
def zsqOf (t : Transaction) (env : Env) : ℚ :=
  calculate_z_score t.amount t.card_type env

/-- The amount-anomaly trigger (`z_score > 2`, i.e. `z² > 4`). -/
def amtFlag (t : Transaction) (env : Env) : Bool :=
  decide (4 < zsqOf t env)

/-- The geographic-drift trigger. -/
def geoFlag (t : Transaction) (env : Env) : Bool :=
  check_geographic_drift t.location t.card_type env

/-- The reason list `detect_fraud` accumulates, in evaluator order. -/
def reasonsOf (t : Transaction) (client_ip : Option String) (env : Env) : List String :=
  (if ipFlag client_ip env then ["Blacklisted IP address"] else []) ++
  (if accFlag t env then ["Blacklisted recipient account"] else []) ++
  (if is_odd_hour t.timestamp then ["Transaction at odd hours (12 AM - 4 AM)"] else []) ++
  (if amtFlag t env then [amountReason (zsqOf t env)] else []) ++
  (if geoFlag t env then ["Geographic drift detected (>500km from last location)"] else [])

/-- The risk score `detect_fraud` accumulates. -/
def scoreOf (t : Transaction) (client_ip : Option String) (env : Env) : ℚ :=
  (if ipFlag client_ip env then 30 else 0) +
  (if accFlag t env then 40 else 0) +
  (if is_odd_hour t.timestamp then 15 else 0) +
  (if amtFlag t env then 20 else 0) +
  (if geoFlag t env then 25 else 0)

/-- The boolean verdict `detect_fraud` returns. -/
def verdictOf (t : Transaction) (client_ip : Option String) (env : Env) : Bool :=
  decide (0 < (reasonsOf t client_ip env).length ∨ 30 ≤ scoreOf t client_ip env)

/-- When the blacklist store raises, `detect_fraud` raises too: the two
`find_one` calls in `detect_fraud` are not inside any `try/except`. -/
theorem detect_fraud_raises (t : Transaction) (client_ip : Option String) (env : Env)
    (hb : env.blacklistFails = true) :
    detect_fraud t client_ip env = Except.error () := by
  unfold detect_fraud findBlacklist
  rw [hb]
  cases client_ip with
  | none => rfl
  | some ip => by_cases h : ip = "" <;> simp [h]

/-- When the blacklist store answers, `detect_fraud` returns the
canonical assessment built from the five evaluator triggers. -/
theorem detect_fraud_eq (t : Transaction) (client_ip : Option String) (env : Env)
    (hb : env.blacklistFails = false) :
    detect_fraud t client_ip env =
      Except.ok (verdictOf t client_ip env,
        reasonsOf t client_ip env, scoreOf t client_ip env) := by
  unfold detect_fraud findBlacklist verdictOf reasonsOf scoreOf ipFlag accFlag amtFlag
    geoFlag zsqOf
  rw [hb]
  cases client_ip with
  | none =>
      by_cases h2 : env.blacklist.any
          (fun e => e.kind == "account" && e.value == t.recipient_account_number) = true <;>
      by_cases h3 : is_odd_hour t.timestamp = true <;>
      by_cases h4 : 4 < calculate_z_score t.amount t.card_type env <;>
      by_cases h5 : check_geographic_drift t.location t.card_type env = true <;>
      simp [h2, h3, h4, h5]
  | some ip =>
      by_cases h1 : ip = "" <;>
      by_cases h0 : env.blacklist.any (fun e => e.kind == "ip" && e.value == ip) = true <;>
      by_cases h2 : env.blacklist.any
          (fun e => e.kind == "account" && e.value == t.recipient_account_number) = true <;>
      by_cases h3 : is_odd_hour t.timestamp = true <;>
      by_cases h4 : 4 < calculate_z_score t.amount t.card_type env <;>
      by_cases h5 : check_geographic_drift t.location t.card_type env = true <;>
      simp [h1, h0, h2, h3, h4, h5]

/-! ## The five reason strings are pairwise distinct -/

theorem ip_ne_amountReason (z : ℚ) : "Blacklisted IP address" ≠ amountReason z := by
  intro h
  have h1 : (amountReason z).data.head? = some 'A' := rfl
  rw [← h] at h1
  exact absurd h1 (by decide)

theorem acc_ne_amountReason (z : ℚ) :
    "Blacklisted recipient account" ≠ amountReason z := by
  intro h
  have h1 : (amountReason z).data.head? = some 'A' := rfl
  rw [← h] at h1
  exact absurd h1 (by decide)

theorem odd_ne_amountReason (z : ℚ) :
    "Transaction at odd hours (12 AM - 4 AM)" ≠ amountReason z := by
  intro h
  have h1 : (amountReason z).data.head? = some 'A' := rfl
  rw [← h] at h1
  exact absurd h1 (by decide)

theorem geo_ne_amountReason (z : ℚ) :
    "Geographic drift detected (>500km from last location)" ≠ amountReason z := by
  intro h
  have h1 : (amountReason z).data.head? = some 'A' := rfl
  rw [← h] at h1
  exact absurd h1 (by decide)

/-! ## Membership in the canonical reason list -/

/-- A string is in the reason list iff one of the five evaluators put it
there. -/
theorem mem_reasonsOf (t : Transaction) (client_ip : Option String) (env : Env)
    (r : String) :
    r ∈ reasonsOf t client_ip env ↔
      (ipFlag client_ip env = true ∧ r = "Blacklisted IP address") ∨
      (accFlag t env = true ∧ r = "Blacklisted recipient account") ∨
      (is_odd_hour t.timestamp = true ∧ r = "Transaction at odd hours (12 AM - 4 AM)") ∨
      (amtFlag t env = true ∧ r = amountReason (zsqOf t env)) ∨
      (geoFlag t env = true ∧ r = "Geographic drift detected (>500km from last location)") := by
  unfold reasonsOf
  by_cases h1 : ipFlag client_ip env = true <;>
  by_cases h2 : accFlag t env = true <;>
  by_cases h3 : is_odd_hour t.timestamp = true <;>
  by_cases h4 : amtFlag t env = true <;>
  by_cases h5 : geoFlag t env = true <;>
  simp [h1, h2, h3, h4, h5, or_comm, or_left_comm]

/-- The canonical reason list never repeats a reason. -/
theorem reasonsOf_nodup (t : Transaction) (client_ip : Option String) (env : Env) :
    (reasonsOf t client_ip env).Nodup := by
  unfold reasonsOf
  by_cases h1 : ipFlag client_ip env = true <;>
  by_cases h2 : accFlag t env = true <;>
  by_cases h3 : is_odd_hour t.timestamp = true <;>
  by_cases h4 : amtFlag t env = true <;>
  by_cases h5 : geoFlag t env = true <;>
  simp [h1, h2, h3, h4, h5, ip_ne_amountReason, acc_ne_amountReason, odd_ne_amountReason,
    geo_ne_amountReason, Ne.symm (ip_ne_amountReason (zsqOf t env)),
    Ne.symm (acc_ne_amountReason (zsqOf t env)), Ne.symm (odd_ne_amountReason (zsqOf t env)),
    Ne.symm (geo_ne_amountReason (zsqOf t env))]

theorem ip_mem_iff (t : Transaction) (client_ip : Option String) (env : Env) :
    "Blacklisted IP address" ∈ reasonsOf t client_ip env ↔ ipFlag client_ip env = true := by
  rw [mem_reasonsOf]
  simp [ip_ne_amountReason (zsqOf t env)]

theorem acc_mem_iff (t : Transaction) (client_ip : Option String) (env : Env) :
    "Blacklisted recipient account" ∈ reasonsOf t client_ip env ↔ accFlag t env = true := by
  rw [mem_reasonsOf]
  simp [acc_ne_amountReason (zsqOf t env)]

theorem odd_mem_iff (t : Transaction) (client_ip : Option String) (env : Env) :
    "Transaction at odd hours (12 AM - 4 AM)" ∈ reasonsOf t client_ip env ↔
      is_odd_hour t.timestamp = true := by
  rw [mem_reasonsOf]
  simp [odd_ne_amountReason (zsqOf t env)]

theorem amt_mem_iff (t : Transaction) (client_ip : Option String) (env : Env) :
    amountReason (zsqOf t env) ∈ reasonsOf t client_ip env ↔ amtFlag t env = true := by
  rw [mem_reasonsOf]
  simp [Ne.symm (ip_ne_amountReason (zsqOf t env)),
    Ne.symm (acc_ne_amountReason (zsqOf t env)),
    Ne.symm (odd_ne_amountReason (zsqOf t env)),
    Ne.symm (geo_ne_amountReason (zsqOf t env))]

theorem geo_mem_iff (t : Transaction) (client_ip : Option String) (env : Env) :
    "Geographic drift detected (>500km from last location)" ∈ reasonsOf t client_ip env ↔
      geoFlag t env = true := by
  rw [mem_reasonsOf]
  simp [geo_ne_amountReason (zsqOf t env)]

/-- Inversion: a successful `detect_fraud` run means the store answered
and the result is the canonical assessment. -/
theorem detect_ok_inv (t : Transaction) (client_ip : Option String) (env : Env)
    (f : Bool) (rs : List String) (s : ℚ)
    (heq : detect_fraud t client_ip env = Except.ok (f, rs, s)) :
    env.blacklistFails = false ∧ f = verdictOf t client_ip env ∧
      rs = reasonsOf t client_ip env ∧ s = scoreOf t client_ip env := by
  cases hb : env.blacklistFails with
  | true =>
      rw [detect_fraud_raises t client_ip env hb] at heq
      exact absurd heq (by simp)
  | false =>
      rw [detect_fraud_eq t client_ip env hb] at heq
      have h2 := heq
      simp only [Except.ok.injEq, Prod.mk.injEq] at h2
      exact ⟨rfl, h2.1.symm, h2.2.1.symm, h2.2.2.symm⟩

/-! ## Claims -/

/-- C1: for every call of `detect_fraud`, the returned risk score equals
the exact sum of the weights of the findings whose reason texts appear in
the returned reason list (IP 30, account 40, odd-hour 15, amount-anomaly
20, geographic-drift 25), with no double counting (the list never repeats
a reason) and starting from 0 when nothing triggers. -/
theorem C1_risk_score_is_weight_sum (t : Transaction) (client_ip : Option String)
    (env : Env) (f : Bool) (rs : List String) (s : ℚ)
    (heq : detect_fraud t client_ip env = Except.ok (f, rs, s)) :
    s = (if "Blacklisted IP address" ∈ rs then 30 else 0) +
        (if "Blacklisted recipient account" ∈ rs then 40 else 0) +
        (if "Transaction at odd hours (12 AM - 4 AM)" ∈ rs then 15 else 0) +
        (if amountReason (zsqOf t env) ∈ rs then 20 else 0) +
        (if "Geographic drift detected (>500km from last location)" ∈ rs then 25 else 0) ∧
      rs.Nodup := by
  obtain ⟨hb, hf, hrs, hs⟩ := detect_ok_inv t client_ip env f rs s heq
  subst hrs
  subst hs
  refine ⟨?_, reasonsOf_nodup t client_ip env⟩
  rw [scoreOf]
  by_cases h1 : ipFlag client_ip env = true <;>
  by_cases h2 : accFlag t env = true <;>
  by_cases h3 : is_odd_hour t.timestamp = true <;>
  by_cases h4 : amtFlag t env = true <;>
  by_cases h5 : geoFlag t env = true <;>
  simp [ip_mem_iff, acc_mem_iff, odd_mem_iff, amt_mem_iff, geo_mem_iff, h1, h2, h3, h4, h5]

/-- C2: `detect_fraud` declares fraud exactly when the collected reason
list is non-empty or the accumulated risk score is at least 30, and a
transaction triggering no evaluator yields `false`, score 0 and an empty
reason list. -/
theorem C2_verdict_rule (t : Transaction) (client_ip : Option String)
    (env : Env) (f : Bool) (rs : List String) (s : ℚ)
    (heq : detect_fraud t client_ip env = Except.ok (f, rs, s)) :
    (f = true ↔ (rs ≠ [] ∨ 30 ≤ s)) ∧ (rs = [] → f = false ∧ s = 0) := by
  obtain ⟨hb, hf, hrs, hs⟩ := detect_ok_inv t client_ip env f rs s heq
  subst hrs
  subst hs
  subst hf
  constructor
  · simp [verdictOf, List.length_pos]
  · intro h0
    by_cases h1 : ipFlag client_ip env = true <;>
    by_cases h2 : accFlag t env = true <;>
    by_cases h3 : is_odd_hour t.timestamp = true <;>
    by_cases h4 : amtFlag t env = true <;>
    by_cases h5 : geoFlag t env = true <;>
    simp [verdictOf, reasonsOf, scoreOf, h1, h2, h3, h4, h5] at h0 ⊢

/-- C8: the numeric clause of the verdict is dead code — the verdict is
true exactly when the reason list is non-empty, because a risk score of
30 or more with an empty reason list is impossible. -/
theorem C8_threshold_clause_dead (t : Transaction) (client_ip : Option String)
    (env : Env) (f : Bool) (rs : List String) (s : ℚ)
    (heq : detect_fraud t client_ip env = Except.ok (f, rs, s)) :
    (f = true ↔ rs ≠ []) ∧ ¬(rs = [] ∧ 30 ≤ s) := by
  obtain ⟨hb, hf, hrs, hs⟩ := detect_ok_inv t client_ip env f rs s heq
  subst hrs
  subst hs
  subst hf
  by_cases h1 : ipFlag client_ip env = true <;>
  by_cases h2 : accFlag t env = true <;>
  by_cases h3 : is_odd_hour t.timestamp = true <;>
  by_cases h4 : amtFlag t env = true <;>
  by_cases h5 : geoFlag t env = true <;>
  simp [verdictOf, reasonsOf, scoreOf, h1, h2, h3, h4, h5]

/-- C4: a transaction whose recipient account is in the blacklist store
under kind `account` (and whose lookup succeeds) is declared fraudulent,
with "Blacklisted recipient account" among the reasons, contributing
exactly 40 to the risk score. -/
theorem C4_blacklisted_account_flagged (t : Transaction) (client_ip : Option String)
    (env : Env) (f : Bool) (rs : List String) (s : ℚ)
    (_hb : env.blacklistFails = false)
    (hmem : ∃ e ∈ env.blacklist, e.kind = "account" ∧ e.value = t.recipient_account_number)
    (heq : detect_fraud t client_ip env = Except.ok (f, rs, s)) :
    f = true ∧ "Blacklisted recipient account" ∈ rs ∧
      s = 40 + ((if "Blacklisted IP address" ∈ rs then 30 else 0) +
        (if "Transaction at odd hours (12 AM - 4 AM)" ∈ rs then 15 else 0) +
        (if amountReason (zsqOf t env) ∈ rs then 20 else 0) +
        (if "Geographic drift detected (>500km from last location)" ∈ rs then 25 else 0)) := by
  obtain ⟨_, hf, hrs, hs⟩ := detect_ok_inv t client_ip env f rs s heq
  subst hrs
  subst hs
  subst hf
  have hacc : accFlag t env = true := by
    unfold accFlag
    rw [List.any_eq_true]
    obtain ⟨e, he, hk, hv⟩ := hmem
    exact ⟨e, he, by simp [hk, hv]⟩
  have hm := (acc_mem_iff t client_ip env).2 hacc
  refine ⟨?_, hm, ?_⟩
  · have hlen := List.length_pos_of_mem hm
    simp [verdictOf]
    exact Or.inl hlen
  · by_cases h1 : ipFlag client_ip env = true <;>
    by_cases h3 : is_odd_hour t.timestamp = true <;>
    by_cases h4 : amtFlag t env = true <;>
    by_cases h5 : geoFlag t env = true <;>
    simp [scoreOf, ip_mem_iff, acc_mem_iff, odd_mem_iff, amt_mem_iff, geo_mem_iff,
      hacc, h1, h3, h4, h5] <;>
    ring

def txW4 : Transaction :=
  ⟨"tx-acct", "2024-03-10 11:30:00", 250, "Chennai", "visa", "USD", "ACC123456789"⟩

def envW4 : Env :=
  ⟨[⟨"account", "ACC123456789", 0, none⟩], false, [], false,
   fun _ => none, fun _ => false, fun _ _ => 0⟩

theorem C4_witness : envW4.blacklistFails = false ∧
    (∃ e ∈ envW4.blacklist, e.kind = "account" ∧ e.value = txW4.recipient_account_number) ∧
    ∃ f rs s, detect_fraud txW4 none envW4 = Except.ok (f, rs, s) ∧
      (f = true ∧ "Blacklisted recipient account" ∈ rs ∧
        s = 40 + ((if "Blacklisted IP address" ∈ rs then 30 else 0) +
          (if "Transaction at odd hours (12 AM - 4 AM)" ∈ rs then 15 else 0) +
          (if amountReason (zsqOf txW4 envW4) ∈ rs then 20 else 0) +
          (if "Geographic drift detected (>500km from last location)" ∈ rs then 25 else 0))) := by
  refine ⟨rfl, by decide, ?_⟩
  obtain ⟨f, rs, s, heq⟩ :
      ∃ f rs s, detect_fraud txW4 none envW4 = Except.ok (f, rs, s) := ⟨_, _, _, rfl⟩
  exact ⟨f, rs, s, heq,
    C4_blacklisted_account_flagged txW4 none envW4 f rs s rfl (by decide) heq⟩

/-- C3 counterexample: the claim says a blacklist lookup failure is
swallowed and treated as "not blacklisted", but the two
`blacklist_collection.find_one` calls in `detect_fraud` are outside any
`try/except`, so a raising store makes `detect_fraud` raise instead of
returning an assessment. -/
def txC3 : Transaction :=
  ⟨"tx-c3", "2024-03-10 11:30:00", 250, "Chennai", "visa", "USD", "ACC42"⟩

def envC3 : Env :=
  ⟨[], true, [], false, fun _ => none, fun _ => false, fun _ _ => 0⟩

theorem C3_counterexample : detect_fraud txC3 none envC3 = Except.error () := rfl

/-- C3 (amended): whenever the blacklist lookups succeed, `detect_fraud`
returns an assessment for every input — the odd-hour, amount-anomaly and
geographic-drift evaluators swallow their own faults (malformed
timestamp, failing history query, failing geocoder); only a blacklist
store failure escapes to the caller. -/
theorem C3_no_raise_when_blacklist_answers (t : Transaction)
    (client_ip : Option String) (env : Env) (hb : env.blacklistFails = false) :
    (detect_fraud t client_ip env).isOk = true := by
  rw [detect_fraud_eq t client_ip env hb]
  rfl

def txC3w : Transaction :=
  ⟨"tx-c3w", "not a timestamp", 250, "Chennai", "visa", "USD", "ACC42"⟩

def envC3w : Env :=
  ⟨[], false, [], true, fun _ => none, fun _ => true, fun _ _ => 0⟩

theorem C3_witness : envC3w.blacklistFails = false ∧
    envC3w.historyFails = true ∧ envC3w.geocodeFails "Chennai" = true ∧
    parseTimestamp txC3w.timestamp = none ∧
    (detect_fraud txC3w none envC3w).isOk = true :=
  ⟨rfl, rfl, rfl, rfl, C3_no_raise_when_blacklist_answers txC3w none envC3w rfl⟩

/-- C6 counterexample: at a timestamp with hour 2 the claim asserts the
reason string with an en dash ("12 AM – 4 AM"); the code emits a plain
hyphen ("12 AM - 4 AM"), so the claimed string is absent. -/
def txC6 : Transaction :=
  ⟨"tx-c6", "2024-01-01 02:00:00", 100, "Chennai", "visa", "USD", "ACC42"⟩

def envC6 : Env :=
  ⟨[], false, [], false, fun _ => none, fun _ => false, fun _ _ => 0⟩

theorem C6_counterexample :
    parseTimestamp txC6.timestamp = some ⟨2024, 1, 1, 2, 0, 0⟩ ∧
    (detect_fraud txC6 none envC6).map (fun r =>
        (decide ("Transaction at odd hours (12 AM – 4 AM)" ∈ r.2.1),
         decide ("Transaction at odd hours (12 AM - 4 AM)" ∈ r.2.1))) =
      Except.ok (false, true) :=
  ⟨rfl, rfl⟩

/-- C6 (amended): for every transaction whose timestamp parses, the
odd-hour finding "Transaction at odd hours (12 AM - 4 AM)" (hyphen as in
the code, not the en dash of the claim) is present iff the hour-of-day
lies in the closed interval [0, 4]; parsing bounds the hour at 23. -/
theorem C6_odd_hour_window (t : Transaction) (client_ip : Option String)
    (env : Env) (f : Bool) (rs : List String) (s : ℚ) (pt : ParsedTime)
    (hpt : parseTimestamp t.timestamp = some pt)
    (heq : detect_fraud t client_ip env = Except.ok (f, rs, s)) :
    ("Transaction at odd hours (12 AM - 4 AM)" ∈ rs ↔ pt.hour ≤ 4) := by
  obtain ⟨hb, hf, hrs, hs⟩ := detect_ok_inv t client_ip env f rs s heq
  subst hrs
  rw [odd_mem_iff]
  unfold is_odd_hour
  rw [hpt]
  simp

def txC6w : Transaction :=
  ⟨"tx-c6w", "2024-06-15 03:15:00", 100, "Chennai", "visa", "USD", "ACC42"⟩

def envC6w : Env :=
  ⟨[], false, [], false, fun _ => none, fun _ => false, fun _ _ => 0⟩

theorem C6_witness :
    parseTimestamp txC6w.timestamp = some ⟨2024, 6, 15, 3, 15, 0⟩ ∧
    ∃ f rs s, detect_fraud txC6w none envC6w = Except.ok (f, rs, s) ∧
      ("Transaction at odd hours (12 AM - 4 AM)" ∈ rs ↔ (3 : Nat) ≤ 4) := by
  refine ⟨rfl, ?_⟩
  obtain ⟨f, rs, s, heq⟩ :
      ∃ f rs s, detect_fraud txC6w none envC6w = Except.ok (f, rs, s) := ⟨_, _, _, rfl⟩
  exact ⟨f, rs, s, heq,
    C6_odd_hour_window txC6w none envC6w f rs s ⟨2024, 6, 15, 3, 15, 0⟩ rfl heq⟩

/-! ## Canonical description of one `check_fraud_endpoint` run -/

/-- The `transaction_doc` the endpoint stores. -/
def txnDocOf (t : Transaction) (username : String) (now : Nat) (env : Env) : HistRecord :=
  ⟨t.transaction_id, t.timestamp, t.amount, t.location, t.card_type, t.currency,
   t.recipient_account_number, verdictOf t none env, reasonsOf t none env,
   scoreOf t none env, username, now⟩

/-- The response the endpoint returns. -/
def respOf (t : Transaction) (env : Env) : TransactionResponse :=
  ⟨t.transaction_id, t.timestamp, t.amount, t.location, t.card_type, t.currency,
   t.recipient_account_number, verdictOf t none env, reasonsOf t none env,
   scoreOf t none env⟩

/-- The environment after the endpoint's writes. -/
def envAfter (t : Transaction) (username : String) (now : Nat) (env : Env) : Env :=
  let env1 := { env with history := env.history ++ [txnDocOf t username now env] }
  if verdictOf t none env then
    { env1 with blacklist := (blacklistUpsert env1.blacklist "account"
        t.recipient_account_number now (some "Fraudulent transaction detected")) }
  else env1

theorem endpoint_raises (t : Transaction) (username : String) (now : Nat) (env : Env)
    (hb : env.blacklistFails = true) :
    check_fraud_endpoint t username now env = Except.error () := by
  unfold check_fraud_endpoint
  rw [detect_fraud_raises t none env hb]

theorem endpoint_eq (t : Transaction) (username : String) (now : Nat) (env : Env)
    (hb : env.blacklistFails = false) :
    check_fraud_endpoint t username now env =
      Except.ok (respOf t env, envAfter t username now env) := by
  unfold check_fraud_endpoint respOf envAfter txnDocOf
  rw [detect_fraud_eq t none env hb]

theorem endpoint_ok_inv (t : Transaction) (username : String) (now : Nat) (env : Env)
    (resp : TransactionResponse) (env2 : Env)
    (heq : check_fraud_endpoint t username now env = Except.ok (resp, env2)) :
    env.blacklistFails = false ∧ resp = respOf t env ∧
      env2 = envAfter t username now env := by
  cases hb : env.blacklistFails with
  | true =>
      rw [endpoint_raises t username now env hb] at heq
      exact absurd heq (by simp)
  | false =>
      rw [endpoint_eq t username now env hb] at heq
      have h2 := heq
      simp only [Except.ok.injEq, Prod.mk.injEq] at h2
      exact ⟨rfl, h2.1.symm, h2.2.symm⟩

/-- C10: the public endpoint calls `detect_fraud` without a client IP, so
the blacklisted-IP branch is skipped: the response's reasons never
contain "Blacklisted IP address" and the weight 30 is never added — the
risk score is exactly the sum of the other four contributions. -/
theorem C10_endpoint_never_flags_ip (t : Transaction) (username : String) (now : Nat)
    (env : Env) (resp : TransactionResponse) (env2 : Env)
    (heq : check_fraud_endpoint t username now env = Except.ok (resp, env2)) :
    "Blacklisted IP address" ∉ resp.fraud_reasons ∧
      resp.risk_score =
        (if "Blacklisted recipient account" ∈ resp.fraud_reasons then 40 else 0) +
        (if "Transaction at odd hours (12 AM - 4 AM)" ∈ resp.fraud_reasons then 15 else 0) +
        (if amountReason (zsqOf t env) ∈ resp.fraud_reasons then 20 else 0) +
        (if "Geographic drift detected (>500km from last location)" ∈ resp.fraud_reasons
          then 25 else 0) := by
  obtain ⟨hb, hresp, henv⟩ := endpoint_ok_inv t username now env resp env2 heq
  subst hresp
  have hip : ipFlag none env = false := rfl
  constructor
  · intro hmem
    have : ipFlag none env = true := (ip_mem_iff t none env).1 hmem
    rw [hip] at this
    exact Bool.noConfusion this
  · show scoreOf t none env = _
    by_cases h2 : accFlag t env = true <;>
    by_cases h3 : is_odd_hour t.timestamp = true <;>
    by_cases h4 : amtFlag t env = true <;>
    by_cases h5 : geoFlag t env = true <;>
    simp [scoreOf, respOf, ip_mem_iff, acc_mem_iff, odd_mem_iff, amt_mem_iff, geo_mem_iff,
      hip, h2, h3, h4, h5]

def txW10 : Transaction :=
  ⟨"tx-w10", "2024-03-10 01:30:00", 250, "Chennai", "visa", "USD", "ACC42"⟩

def envW10 : Env :=
  ⟨[⟨"ip", "192.168.1.100", 0, none⟩], false, [], false,
   fun _ => none, fun _ => false, fun _ _ => 0⟩

theorem C10_witness :
    ∃ resp env2, check_fraud_endpoint txW10 "alice" 3 envW10 = Except.ok (resp, env2) ∧
      ("Blacklisted IP address" ∉ resp.fraud_reasons ∧
        resp.risk_score =
          (if "Blacklisted recipient account" ∈ resp.fraud_reasons then 40 else 0) +
          (if "Transaction at odd hours (12 AM - 4 AM)" ∈ resp.fraud_reasons then 15 else 0) +
          (if amountReason (zsqOf txW10 envW10) ∈ resp.fraud_reasons then 20 else 0) +
          (if "Geographic drift detected (>500km from last location)" ∈ resp.fraud_reasons
            then 25 else 0)) := by
  obtain ⟨resp, env2, heq⟩ :
      ∃ resp env2, check_fraud_endpoint txW10 "alice" 3 envW10 = Except.ok (resp, env2) :=
    ⟨_, _, rfl⟩
  exact ⟨resp, env2, heq, C10_endpoint_never_flags_ip txW10 "alice" 3 envW10 resp env2 heq⟩

/-! ## The upsert keeps one entry per (kind, value) -/

theorem filter_setFirst_eq (k v : String) (time : Nat) (reason : Option String) :
    ∀ bl : List BlacklistEntry,
      (bl.filter (fun e => e.kind == k && e.value == v)).length ≤ 1 →
      bl.any (fun e => e.kind == k && e.value == v) = true →
      (setFirst (fun e => e.kind == k && e.value == v)
          (fun _ => ⟨k, v, time, reason⟩) bl).filter
          (fun e => e.kind == k && e.value == v) = [⟨k, v, time, reason⟩] := by
  intro bl
  induction bl with
  | nil => intro _ hany; exact absurd hany (by simp)
  | cons e es ih =>
      intro hlen hany
      by_cases hpe : (e.kind == k && e.value == v) = true
      · have hes : es.filter (fun e => e.kind == k && e.value == v) = [] := by
          rw [List.filter_cons, if_pos hpe] at hlen
          simp only [List.length_cons] at hlen
          exact List.length_eq_zero.1 (by omega)
        simp [setFirst, hpe, List.filter_cons, hes]
      · have hany2 : es.any (fun e => e.kind == k && e.value == v) = true := by
          rcases List.any_eq_true.1 hany with ⟨a, ha, hpa⟩
          rcases List.mem_cons.1 ha with ha1 | ha2
          · exact absurd hpa (by rw [ha1]; exact hpe)
          · exact List.any_eq_true.2 ⟨a, ha2, hpa⟩
        have hlen2 : (es.filter (fun e => e.kind == k && e.value == v)).length ≤ 1 := by
          simpa [List.filter_cons, hpe] using hlen
        simp [setFirst, hpe, List.filter_cons, ih hlen2 hany2]

/-- After an upsert into a store holding at most one entry for the key,
the store holds exactly one entry for the key, carrying the new
metadata. -/
theorem filter_blacklistUpsert (bl : List BlacklistEntry) (k v : String)
    (time : Nat) (reason : Option String)
    (hlen : (bl.filter (fun e => e.kind == k && e.value == v)).length ≤ 1) :
    (blacklistUpsert bl k v time reason).filter
        (fun e => e.kind == k && e.value == v) = [⟨k, v, time, reason⟩] := by
  unfold blacklistUpsert
  by_cases hany : bl.any (fun e => e.kind == k && e.value == v) = true
  · rw [if_pos hany]
    exact filter_setFirst_eq k v time reason bl hlen hany
  · rw [if_neg hany]
    rw [List.filter_append]
    have h0 : bl.filter (fun e => e.kind == k && e.value == v) = [] := by
      rw [List.filter_eq_nil_iff]
      intro a ha hpa
      exact hany (List.any_eq_true.2 ⟨a, ha, hpa⟩)
    rw [h0]
    simp

/-- C9: the blacklist feedback write is an idempotent upsert keyed on
(kind, value): evaluating the same fraudulent transaction twice leaves
exactly one blacklist entry for that account, the second write refreshing
the entry's metadata (timestamp, reason) rather than inserting a
duplicate. -/
theorem C9_feedback_upsert_idempotent (t : Transaction) (u1 u2 : String)
    (n1 n2 : Nat) (env env1 env2 : Env) (r1 r2 : TransactionResponse)
    (hcount : (env.blacklist.filter
        (fun e => e.kind == "account" && e.value == t.recipient_account_number)).length ≤ 1)
    (h1 : check_fraud_endpoint t u1 n1 env = Except.ok (r1, env1))
    (hf : r1.is_fraud = true)
    (h2 : check_fraud_endpoint t u2 n2 env1 = Except.ok (r2, env2)) :
    env2.blacklist.filter
        (fun e => e.kind == "account" && e.value == t.recipient_account_number) =
      [⟨"account", t.recipient_account_number, n2,
        some "Fraudulent transaction detected"⟩] := by
  obtain ⟨hb1, hr1, he1⟩ := endpoint_ok_inv t u1 n1 env r1 env1 h1
  obtain ⟨hb2, hr2, he2⟩ := endpoint_ok_inv t u2 n2 env1 r2 env2 h2
  have hv1 : verdictOf t none env = true := by
    rw [hr1] at hf
    exact hf
  have hbl1 : env1.blacklist = blacklistUpsert env.blacklist "account"
      t.recipient_account_number n1 (some "Fraudulent transaction detected") := by
    rw [he1]
    unfold envAfter
    rw [if_pos hv1]
  have hfil1 : env1.blacklist.filter
      (fun e => e.kind == "account" && e.value == t.recipient_account_number) =
      [⟨"account", t.recipient_account_number, n1,
        some "Fraudulent transaction detected"⟩] := by
    rw [hbl1]
    exact filter_blacklistUpsert env.blacklist "account" t.recipient_account_number n1
      (some "Fraudulent transaction detected") hcount
  have hacc1 : accFlag t env1 = true := by
    unfold accFlag
    rw [List.any_eq_true]
    refine ⟨⟨"account", t.recipient_account_number, n1,
      some "Fraudulent transaction detected"⟩, ?_, by simp⟩
    have : (⟨"account", t.recipient_account_number, n1,
        some "Fraudulent transaction detected"⟩ : BlacklistEntry) ∈
        env1.blacklist.filter
          (fun e => e.kind == "account" && e.value == t.recipient_account_number) := by
      rw [hfil1]
      exact List.mem_singleton_self _
    exact (List.mem_filter.1 this).1
  have hv2 : verdictOf t none env1 = true := by
    have hm := (acc_mem_iff t none env1).2 hacc1
    have hlen := List.length_pos_of_mem hm
    simp [verdictOf]
    exact Or.inl hlen
  have hbl2 : env2.blacklist = blacklistUpsert env1.blacklist "account"
      t.recipient_account_number n2 (some "Fraudulent transaction detected") := by
    rw [he2]
    unfold envAfter
    rw [if_pos hv2]
  rw [hbl2]
  apply filter_blacklistUpsert
  rw [hfil1]
  simp

def txW9 : Transaction :=
  ⟨"tx-w9", "2024-03-10 11:30:00", 250, "Chennai", "visa", "USD", "ACC9"⟩

def envW9 : Env :=
  ⟨[⟨"account", "ACC9", 0, none⟩], false, [], false,
   fun _ => none, fun _ => false, fun _ _ => 0⟩

theorem C9_witness :
    (envW9.blacklist.filter
        (fun e => e.kind == "account" && e.value == txW9.recipient_account_number)).length ≤ 1 ∧
    ∃ r1 env1 r2 env2,
      check_fraud_endpoint txW9 "u1" 5 envW9 = Except.ok (r1, env1) ∧
      r1.is_fraud = true ∧
      check_fraud_endpoint txW9 "u2" 8 env1 = Except.ok (r2, env2) ∧
      env2.blacklist.filter
          (fun e => e.kind == "account" && e.value == txW9.recipient_account_number) =
        [⟨"account", txW9.recipient_account_number, 8,
          some "Fraudulent transaction detected"⟩] := by
  refine ⟨by decide, ?_⟩
  obtain ⟨r1, env1, h1⟩ :
      ∃ r1 env1, check_fraud_endpoint txW9 "u1" 5 envW9 = Except.ok (r1, env1) := ⟨_, _, rfl⟩
  obtain ⟨r2, env2, h2⟩ :
      ∃ r2 env2, check_fraud_endpoint txW9 "u2" 8 env1 = Except.ok (r2, env2) := by
    obtain ⟨hb1, hr1, he1⟩ := endpoint_ok_inv txW9 "u1" 5 envW9 r1 env1 h1
    rw [he1]
    exact ⟨_, _, endpoint_eq txW9 "u2" 8 _ rfl⟩
  have hf : r1.is_fraud = true := by
    obtain ⟨hb1, hr1, he1⟩ := endpoint_ok_inv txW9 "u1" 5 envW9 r1 env1 h1
    rw [hr1]
    rfl
  exact ⟨r1, env1, r2, env2, h1, hf, h2,
    C9_feedback_upsert_idempotent txW9 "u1" "u2" 5 8 envW9 env1 env2 r1 r2
      (by decide) h1 hf h2⟩

/-- C7: the geographic-drift evaluator emits no finding when no prior
same-card-type transaction exists; when either location fails to resolve
the distance is treated as 0 and no finding is emitted; otherwise the
finding is present iff the distance to the most recent same-card-type
transaction's location strictly exceeds 500 km. -/
theorem C7_geographic_drift (t : Transaction) (client_ip : Option String)
    (env : Env) (f : Bool) (rs : List String) (s : ℚ)
    (hh : env.historyFails = false)
    (heq : detect_fraud t client_ip env = Except.ok (f, rs, s)) :
    (lastTransaction env t.card_type = none →
      "Geographic drift detected (>500km from last location)" ∉ rs) ∧
    (∀ p, lastTransaction env t.card_type = some p →
      (get_coordinates env t.location = none ∨ get_coordinates env p.location = none) →
      calculate_distance env t.location p.location = 0 ∧
        "Geographic drift detected (>500km from last location)" ∉ rs) ∧
    (∀ p c1 c2, lastTransaction env t.card_type = some p →
      get_coordinates env t.location = some c1 →
      get_coordinates env p.location = some c2 →
      ("Geographic drift detected (>500km from last location)" ∈ rs ↔
        500 < env.geoDistance c1 c2)) := by
  obtain ⟨hb, hf, hrs, hs⟩ := detect_ok_inv t client_ip env f rs s heq
  subst hrs
  refine ⟨?_, ?_, ?_⟩
  · intro hnone hmem
    have hflag := (geo_mem_iff t client_ip env).1 hmem
    unfold geoFlag check_geographic_drift at hflag
    rw [hh, hnone] at hflag
    exact Bool.noConfusion hflag
  · intro p hsome hfail
    have hdist : calculate_distance env t.location p.location = 0 := by
      unfold calculate_distance
      rcases hfail with hc1 | hc2
      · rw [hc1]
      · rw [hc2]
        cases get_coordinates env t.location <;> rfl
    refine ⟨hdist, ?_⟩
    intro hmem
    have hflag := (geo_mem_iff t client_ip env).1 hmem
    unfold geoFlag check_geographic_drift at hflag
    rw [hh, hsome] at hflag
    simp [hdist] at hflag
    exact absurd hflag (by norm_num)
  · intro p c1 c2 hsome hc1 hc2
    rw [geo_mem_iff]
    unfold geoFlag check_geographic_drift calculate_distance
    rw [hh, hsome]
    simp [hc1, hc2]

def txW7 : Transaction :=
  ⟨"tx-w7", "2024-03-10 11:30:00", 250, "Mumbai", "visa", "USD", "ACC42"⟩

def histW7 : HistRecord :=
  ⟨"tx-old", "2024-03-09 10:00:00", 100, "Chennai", "visa", "USD", "ACC41",
   false, [], 0, "u", 0⟩

def envW7 : Env :=
  ⟨[], false, [histW7], false,
   fun loc => if loc = "Mumbai" then some (19, 73) else
              if loc = "Chennai" then some (13, 80) else none,
   fun _ => false,
   fun c1 c2 => if c1 = (19, 73) ∧ c2 = (13, 80) then 1030 else 0⟩

theorem C7_witness : envW7.historyFails = false ∧
    lastTransaction envW7 txW7.card_type = some histW7 ∧
    get_coordinates envW7 txW7.location = some (19, 73) ∧
    get_coordinates envW7 histW7.location = some (13, 80) ∧
    ∃ f rs s, detect_fraud txW7 none envW7 = Except.ok (f, rs, s) ∧
      ("Geographic drift detected (>500km from last location)" ∈ rs ↔
        500 < envW7.geoDistance (19, 73) (13, 80)) := by
  refine ⟨rfl, rfl, rfl, rfl, ?_⟩
  obtain ⟨f, rs, s, heq⟩ :
      ∃ f rs s, detect_fraud txW7 none envW7 = Except.ok (f, rs, s) := ⟨_, _, _, rfl⟩
  exact ⟨f, rs, s, heq,
    ((C7_geographic_drift txW7 none envW7 f rs s rfl heq).2.2 histW7 (19, 73) (13, 80)
      rfl rfl rfl)⟩

theorem sampleVar_nonneg (xs : List ℚ) : 0 ≤ sampleVar xs := by
  unfold sampleVar
  apply div_nonneg
  · apply List.sum_nonneg
    intro x hx
    rcases List.mem_map.1 hx with ⟨a, _, rfl⟩
    positivity
  · positivity

/-- `z > 2` on the real z-score is the same as `z² > 4` on the rational
square the embedding carries. -/
theorem zsq_gt_four_iff (a m v : ℚ) (hv : 0 < v) :
    4 < (a - m) ^ 2 / v ↔
      2 < |(a : ℝ) - (m : ℝ)| / Real.sqrt (v : ℝ) := by
  have hv2 : (0 : ℝ) < (v : ℝ) := by exact_mod_cast hv
  have hs : 0 < Real.sqrt (v : ℝ) := Real.sqrt_pos.2 hv2
  have hs2 : Real.sqrt (v : ℝ) ^ 2 = (v : ℝ) := Real.sq_sqrt hv2.le
  constructor
  · intro h
    have hr : (4 : ℝ) < ((a : ℝ) - (m : ℝ)) ^ 2 / (v : ℝ) := by
      exact_mod_cast h
    rw [lt_div_iff hv2] at hr
    rw [lt_div_iff hs]
    have habs : (2 * Real.sqrt (v : ℝ)) ^ 2 < |(a : ℝ) - (m : ℝ)| ^ 2 := by
      rw [mul_pow, hs2, sq_abs]
      nlinarith
    have := lt_of_pow_lt_pow_left 2 (abs_nonneg ((a : ℝ) - (m : ℝ))) habs
    linarith
  · intro h
    rw [lt_div_iff hs] at h
    have habs : (2 * Real.sqrt (v : ℝ)) ^ 2 < |(a : ℝ) - (m : ℝ)| ^ 2 := by
      apply pow_lt_pow_left h (by positivity)
      norm_num
    rw [mul_pow, hs2, sq_abs] at habs
    have hr : (4 : ℝ) < ((a : ℝ) - (m : ℝ)) ^ 2 / (v : ℝ) := by
      rw [lt_div_iff hv2]
      nlinarith
    exact_mod_cast hr


/-- `calculate_z_score` with a responsive history store, written as a
chain of guards over the five-record window. -/
theorem calculate_z_score_eq (amount : ℚ) (ct : String) (env : Env)
    (hh : env.historyFails = false) :
    calculate_z_score amount ct env =
      (if (recentWindow env ct).length < 2 then 0
       else if sampleVar ((recentWindow env ct).map (fun r => r.amount)) = 0 then 0
       else (amount - sampleMean ((recentWindow env ct).map (fun r => r.amount))) ^ 2 /
              sampleVar ((recentWindow env ct).map (fun r => r.amount))) := by
  unfold calculate_z_score
  rw [hh]
  rfl

set_option maxHeartbeats 1000000 in
/-- C5: the amount-anomaly evaluator over the most recent 5 same-card
history transactions: with fewer than 2 records it emits no finding, with
standard deviation exactly 0 (variance 0) it emits no finding, and
otherwise it emits the finding `amountReason` — the text "Abnormal
transaction amount (z-score: {z, 2 decimal places})" — with the z-score
computed from the window's mean and standard deviation, if and only if
the real z-score `|amount - mean| / stddev` exceeds 2. -/
theorem C5_amount_anomaly (t : Transaction) (client_ip : Option String)
    (env : Env) (f : Bool) (rs : List String) (s : ℚ)
    (hh : env.historyFails = false)
    (heq : detect_fraud t client_ip env = Except.ok (f, rs, s)) :
    ((recentWindow env t.card_type).length < 2 → ∀ z : ℚ, amountReason z ∉ rs) ∧
    (2 ≤ (recentWindow env t.card_type).length →
      sampleVar ((recentWindow env t.card_type).map (fun r => r.amount)) = 0 →
      ∀ z : ℚ, amountReason z ∉ rs) ∧
    (2 ≤ (recentWindow env t.card_type).length →
      sampleVar ((recentWindow env t.card_type).map (fun r => r.amount)) ≠ 0 →
      (amountReason
          ((t.amount - sampleMean ((recentWindow env t.card_type).map (fun r => r.amount))) ^ 2 /
            sampleVar ((recentWindow env t.card_type).map (fun r => r.amount))) ∈ rs ↔
        2 < |(t.amount : ℝ) -
              (sampleMean ((recentWindow env t.card_type).map (fun r => r.amount)) : ℝ)| /
            Real.sqrt (sampleVar ((recentWindow env t.card_type).map (fun r => r.amount)) : ℝ))) := by
  obtain ⟨hb, hf, hrs, hs⟩ := detect_ok_inv t client_ip env f rs s heq
  subst hrs
  have hzeq := calculate_z_score_eq t.amount t.card_type env hh
  refine ⟨?_, ?_, ?_⟩
  · intro hlen z hmem
    have hz : zsqOf t env = 0 := by
      unfold zsqOf
      rw [hzeq, if_pos hlen]
    have hflag : amtFlag t env = false := by
      simp [amtFlag, hz]
    rcases (mem_reasonsOf t client_ip env (amountReason z)).1 hmem with
      ⟨_, h⟩ | ⟨_, h⟩ | ⟨_, h⟩ | ⟨hfl, _⟩ | ⟨_, h⟩
    · exact (ip_ne_amountReason z) h.symm
    · exact (acc_ne_amountReason z) h.symm
    · exact (odd_ne_amountReason z) h.symm
    · rw [hflag] at hfl; exact Bool.noConfusion hfl
    · exact (geo_ne_amountReason z) h.symm
  · intro hlen hvar z hmem
    have hz : zsqOf t env = 0 := by
      unfold zsqOf
      rw [hzeq, if_neg (Nat.not_lt.2 hlen), if_pos hvar]
    have hflag : amtFlag t env = false := by
      simp [amtFlag, hz]
    rcases (mem_reasonsOf t client_ip env (amountReason z)).1 hmem with
      ⟨_, h⟩ | ⟨_, h⟩ | ⟨_, h⟩ | ⟨hfl, _⟩ | ⟨_, h⟩
    · exact (ip_ne_amountReason z) h.symm
    · exact (acc_ne_amountReason z) h.symm
    · exact (odd_ne_amountReason z) h.symm
    · rw [hflag] at hfl; exact Bool.noConfusion hfl
    · exact (geo_ne_amountReason z) h.symm
  · intro hlen hvar
    set am := (recentWindow env t.card_type).map (fun r => r.amount) with ham
    set mu := sampleMean am with hmu
    set v := sampleVar am with hv
    have hz : zsqOf t env = (t.amount - mu) ^ 2 / v := by
      unfold zsqOf
      rw [hzeq, if_neg (Nat.not_lt.2 hlen), if_neg hvar]
    have hvpos : 0 < v := lt_of_le_of_ne (hv ▸ sampleVar_nonneg am) (Ne.symm hvar)
    rw [← hz, amt_mem_iff]
    have h4 : (amtFlag t env = true) ↔ 4 < zsqOf t env := by
      unfold amtFlag
      exact decide_eq_true_iff
    rw [h4, hz]
    exact zsq_gt_four_iff t.amount mu v hvpos

def txW1 : Transaction :=
  ⟨"tx-w1", "2024-01-01 02:00:00", 100, "Chennai", "visa", "USD", "ACC987654321"⟩

def envW1 : Env :=
  ⟨[⟨"account", "ACC987654321", 0, none⟩], false, [], false,
   fun _ => none, fun _ => false, fun _ _ => 0⟩

theorem C1_witness :
    ∃ f rs s, detect_fraud txW1 none envW1 = Except.ok (f, rs, s) ∧
      (s = (if "Blacklisted IP address" ∈ rs then 30 else 0) +
        (if "Blacklisted recipient account" ∈ rs then 40 else 0) +
        (if "Transaction at odd hours (12 AM - 4 AM)" ∈ rs then 15 else 0) +
        (if amountReason (zsqOf txW1 envW1) ∈ rs then 20 else 0) +
        (if "Geographic drift detected (>500km from last location)" ∈ rs then 25 else 0) ∧
        rs.Nodup) := by
  obtain ⟨f, rs, s, heq⟩ :
      ∃ f rs s, detect_fraud txW1 none envW1 = Except.ok (f, rs, s) := ⟨_, _, _, rfl⟩
  exact ⟨f, rs, s, heq, C1_risk_score_is_weight_sum txW1 none envW1 f rs s heq⟩

def txW2 : Transaction :=
  ⟨"tx-w2", "2024-01-01 12:00:00", 100, "Chennai", "visa", "USD", "ACC7"⟩

def envW2 : Env :=
  ⟨[], false, [], false, fun _ => none, fun _ => false, fun _ _ => 0⟩

theorem C2_witness :
    ∃ f rs s, detect_fraud txW2 none envW2 = Except.ok (f, rs, s) ∧
      ((f = true ↔ (rs ≠ [] ∨ 30 ≤ s)) ∧ (rs = [] → f = false ∧ s = 0)) := by
  obtain ⟨f, rs, s, heq⟩ :
      ∃ f rs s, detect_fraud txW2 none envW2 = Except.ok (f, rs, s) := ⟨_, _, _, rfl⟩
  exact ⟨f, rs, s, heq, C2_verdict_rule txW2 none envW2 f rs s heq⟩

def txW8 : Transaction :=
  ⟨"tx-w8", "2024-01-01 03:00:00", 100, "Chennai", "visa", "USD", "ACC8"⟩

def envW8 : Env :=
  ⟨[], false, [], false, fun _ => none, fun _ => false, fun _ _ => 0⟩

theorem C8_witness :
    ∃ f rs s, detect_fraud txW8 none envW8 = Except.ok (f, rs, s) ∧
      ((f = true ↔ rs ≠ []) ∧ ¬(rs = [] ∧ 30 ≤ s)) := by
  obtain ⟨f, rs, s, heq⟩ :
      ∃ f rs s, detect_fraud txW8 none envW8 = Except.ok (f, rs, s) := ⟨_, _, _, rfl⟩
  exact ⟨f, rs, s, heq, C8_threshold_clause_dead txW8 none envW8 f rs s heq⟩

def txW5 : Transaction :=
  ⟨"tx-w5", "2024-01-06 10:00:00", 50, "Chennai", "visa", "USD", "ACC5"⟩

def histW5 (n : Nat) (ts : String) (amt : ℚ) : HistRecord :=
  ⟨"tx-old-" ++ toString n, ts, amt, "Chennai", "visa", "USD", "ACC5",
   false, [], 0, "u", 0⟩

def envW5 : Env :=
  ⟨[], false,
   [histW5 1 "2024-01-01 10:00:00" 10,
    histW5 2 "2024-01-02 10:00:00" 12,
    histW5 3 "2024-01-03 10:00:00" 11,
    histW5 4 "2024-01-04 10:00:00" 13,
    histW5 5 "2024-01-05 10:00:00" 10],
   false, fun _ => none, fun _ => false, fun _ _ => 0⟩

theorem C5_witness : envW5.historyFails = false ∧
    ∃ f rs s, detect_fraud txW5 none envW5 = Except.ok (f, rs, s) ∧
      (((recentWindow envW5 txW5.card_type).length < 2 → ∀ z : ℚ, amountReason z ∉ rs) ∧
      (2 ≤ (recentWindow envW5 txW5.card_type).length →
        sampleVar ((recentWindow envW5 txW5.card_type).map (fun r => r.amount)) = 0 →
        ∀ z : ℚ, amountReason z ∉ rs) ∧
      (2 ≤ (recentWindow envW5 txW5.card_type).length →
        sampleVar ((recentWindow envW5 txW5.card_type).map (fun r => r.amount)) ≠ 0 →
        (amountReason
            ((txW5.amount -
                sampleMean ((recentWindow envW5 txW5.card_type).map (fun r => r.amount))) ^ 2 /
              sampleVar ((recentWindow envW5 txW5.card_type).map (fun r => r.amount))) ∈ rs ↔
          2 < |(txW5.amount : ℝ) -
                (sampleMean ((recentWindow envW5 txW5.card_type).map (fun r => r.amount)) : ℝ)| /
              Real.sqrt
                (sampleVar ((recentWindow envW5 txW5.card_type).map (fun r => r.amount)) : ℝ)))) := by
  refine ⟨rfl, ?_⟩
  obtain ⟨f, rs, s, heq⟩ :
      ∃ f rs s, detect_fraud txW5 none envW5 = Except.ok (f, rs, s) := ⟨_, _, _, rfl⟩
  exact ⟨f, rs, s, heq, C5_amount_anomaly txW5 none envW5 f rs s rfl heq⟩
